import Mathlib

/-!
# Verification of the Hummingbird conversion orchestration pipeline

Shallow embedding of `src/hummingbird/ml/convert.py`: the `convert` entry
point, its canonicalization of test inputs (list / tuple / pandas dataframe /
spark dataframe), the backend checks, and the family-specific converters
(`_convert_xgboost`, `_convert_onnxml`, `_convert_sklearn`, ...).

Python dynamic values are embedded as the inductive `PyVal`; numpy arrays as
`NpArray` (a shape list, a dtype tag, and flat rational data); the
`extra_config` dictionary as a structure of `Option` fields (a field is `none`
exactly when the corresponding key is absent from the dictionary).  Python
exceptions are embedded as the error type `Err`; each `raise` site of the
source is mapped to the spec's error-taxonomy member for that site (the raw
Python exception classes `AssertionError`, `AttributeError`, `IndexError`,
`TypeError` are kept for the failure modes the source does not guard).
-/

namespace Hummingbird

/-- Numpy element dtypes relevant to the source. -/
inductive Dtype where
  | float32
  | float64
  | int32
  | int64
deriving DecidableEq, Repr

/-- A numpy ndarray: its shape, dtype tag, and flat data.
`len(a)` is `a.shape[0]`; `a.shape[1]` is the column count of a 2-d array. -/
structure NpArray where
  shape : List Nat
  dtype : Dtype
  data : List Rat
deriving DecidableEq, Repr

/-- A pandas DataFrame: named columns with their data
(`df.columns` in declaration order, `df[c].to_numpy()` the column data). -/
structure PandasDF where
  cols : List (String × List Rat)
deriving DecidableEq, Repr

/-- Spark schema field types distinguished by the source's
`type(field.dataType)` chain (lines 312-332 of convert.py). -/
inductive SparkType where
  | denseVector
  | vectorUDT
  | sparseVector
  | arrayType
  | integerType
  | floatType
  | doubleType
  | longType
  | otherType
deriving DecidableEq, Repr

/-- A value in one row of a spark dataframe.  Vector-valued cells carry the
width the source reads off them (`data_col.array.shape[0]`, `data_col.size`,
`len(data_col)` respectively); scalar cells carry their value. -/
inductive SparkCell where
  | dense (width : Nat)
  | sparse (width : Nat)
  | arr (width : Nat)
  | scalar (v : Rat)
deriving DecidableEq, Repr

/-- A spark dataframe field: name plus declared type. -/
structure SparkField where
  name : String
  dataType : SparkType
deriving DecidableEq, Repr

/-- A spark dataframe: a schema and rows (each row aligned with the schema).
`df.count()` is `rows.length`; `df.take(1)[0]` is the first row. -/
structure SparkDF where
  schema : List SparkField
  rows : List (List SparkCell)
deriving DecidableEq, Repr

/-- Python values that can be supplied as `test_input`. -/
inductive PyVal where
  | pynone
  | ndarray (a : NpArray)
  | pylist (xs : List PyVal)
  | pytuple (xs : List PyVal)
  | scalar (v : Rat)
  | pandas (df : PandasDF)
  | spark (df : SparkDF)

/-- Embedded Python exceptions / spec error-taxonomy members.  Each raise
site of the source maps to the taxonomy member the spec assigns it:
`MissingBackend` ↦ `unsupportedBackend`; the `torch.jit` / `onnx` test-input
RuntimeErrors ↦ `missingBackendRequirement`; the XGBoost and ONNX
feature-count RuntimeErrors ↦ `featureInferenceFailure`; the rank-2 asserts ↦
`unsupportedInputRank`; the dtype RuntimeError / spark ValueError and the
non-ndarray tuple-element assert ↦ `unsupportedDataType`.  Unguarded Python
crashes keep their exception class. -/
inductive Err where
  | unsupportedBackend
  | missingBackendRequirement
  | featureInferenceFailure
  | unsupportedInputRank
  | unsupportedDataType
  | unsupportedModelFamily
  | assertionError
  | attributeError
  | indexError
  | typeError
deriving DecidableEq, Repr

/-- The backends registered in the static registry. -/
inductive Backend where
  | torch
  | torchjit
  | onnx
deriving DecidableEq, Repr

/-- Python's `str.lower()` on backend names (ASCII case folding, character
by character). -/
def pyLower (s : String) : String := ⟨s.data.map Char.toLower⟩

/-- Modelled from the spec: the static backend registry
(`hummingbird.ml.supported.backends`, a module not included under src/).
The spec describes it as a static table resolved case-insensitively,
registering the torch, torch.jit and onnx targets; in the source it is a
defaultdict returning `None` for unregistered names, embedded here as an
`Option`-valued lookup. -/
def backends (s : String) : Option Backend :=
  if s = "torch" then some Backend.torch
  else if s = "torch.jit" then some Backend.torchjit
  else if s = "onnx" then some Backend.onnx
  else none

/-- The declared dtype part of an ONNX "initial type"
(`onnxconverter_common.data_types` tensor-type classes). -/
inductive OnnxTensorKind where
  | floatTT
  | doubleTT
  | int32TT
  | int64TT
  | otherTT
deriving DecidableEq, Repr

/-- An ONNX initial type: declared element kind and optional declared shape. -/
structure OnnxTensorType where
  kind : OnnxTensorKind
  shape : Option (List Nat)
deriving DecidableEq, Repr

/-- An ONNX ModelProto graph; `inits` are the names of its
`graph.initializer` entries. -/
structure OnnxGraph where
  inits : List String
deriving DecidableEq, Repr

/-- An XGBoost-family model: `featuresCount = some k` embeds
`"_features_count" in dir(model)` holding value `k`. -/
structure XgbModel where
  featuresCount : Option Nat
deriving DecidableEq, Repr

/-- Modelled from the spec: the model-family classification.  The membership
tests of the source (`type(model) in xgb_operator_list`,
`type(model) in lgbm_operator_list`, `_is_onnx_model`, `_is_sparkml_model`,
with registries from `hummingbird.ml.supported`, a module not included under
src/) are mutually exclusive structural tags, embedded as a closed
inductive: a `Model` carries exactly the family tag the source's sequential
type checks would select. -/
inductive Model where
  | xgb (m : XgbModel)
  | lgbm
  | onnxProto (g : OnnxGraph)
  | sparkml
  | sklearn
deriving DecidableEq, Repr

/-- `_is_onnx_model` (convert.py line 37): the model's runtime type is
`ModelProto`. -/
def _is_onnx_model : Model → Bool
  | Model.onnxProto _ => true
  | _ => false

/-- The family tag a conversion was dispatched to. -/
inductive Family where
  | xgbF
  | lgbmF
  | onnxF
  | sparkmlF
  | sklearnF
deriving DecidableEq, Repr

/-- The `extra_config` dictionary restricted to the keys the orchestration
code reads or writes.  A field is `none` exactly when the key is absent. -/
structure ExtraConfig where
  test_input : Option PyVal := none
  n_features : Option Nat := none
  n_inputs : Option Nat := none
  input_names : Option (List String) := none
  container : Option Bool := none
  n_threads : Option Nat := none
  onnx_initial_types : Option (List (String × OnnxTensorType)) := none
  onnx_inits : Option (List String) := none

instance : Inhabited ExtraConfig := ⟨{}⟩

/-- The observable outcome of a successful conversion: the fully resolved
configuration handed to the external parser/compiler, the family dispatched
to, the resolved backend, and the `test_input` value passed down.  The
external `parse_*` / `topology_converter` collaborators are out of the
spec's core and always succeed. -/
structure ConvertResult where
  config : ExtraConfig
  family : Family
  backend : Backend
  testInputPassed : PyVal

/-- `is_spark_dataframe` from `_utils` (the sparkml runtime is taken as
installed). -/
def isSparkDF : PyVal → Bool
  | PyVal.spark _ => true
  | _ => false

/-- Python `len(test_input)`: tuple/list length, `shape[0]` of an ndarray,
row count of a pandas dataframe; `TypeError` otherwise. -/
def pyLen : PyVal → Except Err Nat
  | PyVal.pynone => Except.error Err.typeError
  | PyVal.ndarray a =>
    match a.shape with
    | [] => Except.error Err.typeError
    | n :: _ => Except.ok n
  | PyVal.pylist xs => Except.ok xs.length
  | PyVal.pytuple xs => Except.ok xs.length
  | PyVal.scalar _ => Except.error Err.typeError
  | PyVal.pandas df =>
    Except.ok (match df.cols with
      | [] => 0
      | c :: _ => c.2.length)
  | PyVal.spark _ => Except.error Err.typeError

/-- Is a Python value a numeric scalar? -/
def isScalar : PyVal → Bool
  | PyVal.scalar _ => true
  | _ => false

/-- The value of a scalar `PyVal` (0 elsewhere; callers guard with
`isScalar`). -/
def scalarVal : PyVal → Rat
  | PyVal.scalar v => v
  | _ => 0

/-- One row of a nested list: a list of numeric scalars. -/
def rowOfScalars : PyVal → Option (List Rat)
  | PyVal.pylist ys => if ys.all isScalar then some (ys.map scalarVal) else none
  | _ => none

/-- `np.array(xs)` on a Python list (convert.py line 280): a flat list of
scalars gives a 1-d array, a rectangular list of lists of scalars gives a 2-d
array; anything else is embedded as a `TypeError` (object arrays are outside
the numeric contract of the pipeline). -/
def npArrayOfList (xs : List PyVal) : Except Err NpArray :=
  match xs with
  | [] => Except.ok { shape := [0], dtype := Dtype.float64, data := [] }
  | _ =>
    if xs.all isScalar then
      Except.ok { shape := [xs.length], dtype := Dtype.float64, data := xs.map scalarVal }
    else
      match xs.mapM rowOfScalars with
      | none => Except.error Err.typeError
      | some rows =>
        match rows with
        | [] => Except.error Err.typeError
        | r :: rs =>
          if rs.all (fun q => q.length = r.length) then
            Except.ok { shape := [xs.length, r.length], dtype := Dtype.float64,
                        data := (r :: rs).flatten }
          else Except.error Err.typeError

/-- Is the value an ndarray (`type(input) == np.ndarray`)? -/
def isNdarray : PyVal → Bool
  | PyVal.ndarray _ => true
  | _ => false

/-- Does the value satisfy `len(input.shape) == 2` (for ndarrays)? -/
def nd2dim : PyVal → Bool
  | PyVal.ndarray a => a.shape.length = 2
  | _ => false

/-- `input.shape[1]` of an ndarray value, 0 elsewhere (callers guard). -/
def pyCols : PyVal → Nat
  | PyVal.ndarray a => a.shape.getD 1 0
  | _ => 0

/-- `sum([input.shape[1] for input in xs])` (convert.py line 287). -/
def sumCols (xs : List PyVal) : Nat :=
  (xs.map pyCols).sum

/-- The pandas branch of the test-input fixing (convert.py lines 289-297):
split the dataframe column-by-column into `(rows, 1)` arrays, record the
column names and counts, and store the tuple of splits (a single split is
stored unwrapped; `splits[0]` on a zero-column frame raises IndexError). -/
def pandasCanon (cfg : ExtraConfig) (df : PandasDF) : Except Err ExtraConfig :=
  let n := df.cols.length
  let names := df.cols.map (fun c => c.1)
  let splits := df.cols.map (fun c =>
    ({ shape := [c.2.length, 1], dtype := Dtype.float64, data := c.2 } : NpArray))
  match splits with
  | [] => Except.error Err.indexError
  | [a] =>
    Except.ok { cfg with n_inputs := some n, n_features := some n,
                         test_input := some (PyVal.ndarray a),
                         input_names := some names }
  | _ =>
    Except.ok { cfg with n_inputs := some n, n_features := some n,
                         test_input := some (PyVal.pytuple (splits.map PyVal.ndarray)),
                         input_names := some names }

/-- The per-field dtype/width derivation of the spark branch (convert.py
lines 312-332): vector-typed fields read their width from the first row's
cell, scalar-typed fields map through the fixed dtype table with width 1, and
an unrecognized field type raises (ValueError, taxonomy
`UnsupportedDataType`).  A first-row cell not matching its declared vector
type crashes as the corresponding Python attribute/len access would. -/
def sparkFieldSpec (t : SparkType) (c : SparkCell) : Except Err (Dtype × Nat) :=
  match t with
  | SparkType.denseVector =>
    match c with
    | SparkCell.dense w => Except.ok (Dtype.float64, w)
    | _ => Except.error Err.attributeError
  | SparkType.vectorUDT =>
    match c with
    | SparkCell.dense w => Except.ok (Dtype.float64, w)
    | _ => Except.error Err.attributeError
  | SparkType.sparseVector =>
    match c with
    | SparkCell.sparse w => Except.ok (Dtype.float64, w)
    | _ => Except.error Err.attributeError
  | SparkType.arrayType =>
    match c with
    | SparkCell.arr w => Except.ok (Dtype.float64, w)
    | _ => Except.error Err.typeError
  | SparkType.integerType => Except.ok (Dtype.int32, 1)
  | SparkType.floatType => Except.ok (Dtype.float32, 1)
  | SparkType.doubleType => Except.ok (Dtype.float64, 1)
  | SparkType.longType => Except.ok (Dtype.int64, 1)
  | SparkType.otherType => Except.error Err.unsupportedDataType

/-- `row_dict[field.name]`: the first row rendered as a name→cell dictionary
(`df.take(1)[0].asDict()`), looked up by field name. -/
def rowLookup (names : List String) (row : List SparkCell) (n : String) : Option SparkCell :=
  (names.zip row).lookup n

/-- The loop body of the spark branch: for each schema field derive
`(dtype, width)` and emit `np.zeros((size, width), dtype)`. -/
def sparkSplitsGo (size : Nat) (names : List String) (row0 : List SparkCell) :
    List SparkField → Except Err (List NpArray)
  | [] => Except.ok []
  | f :: fs =>
    match rowLookup names row0 f.name with
    | none => Except.error Err.typeError
    | some c =>
      match sparkFieldSpec f.dataType c with
      | Except.error e => Except.error e
      | Except.ok (dt, w) =>
        match sparkSplitsGo size names row0 fs with
        | Except.error e => Except.error e
        | Except.ok rest =>
          Except.ok (({ shape := [size, w], dtype := dt,
                        data := List.replicate (size * w) 0 } : NpArray) :: rest)

/-- The splits of the spark branch: `df.count()` rows of zeros per field,
widths measured on `df.take(1)[0]` (IndexError on an empty dataset). -/
def sparkSplits (df : SparkDF) : Except Err (List NpArray) :=
  match df.rows.head? with
  | none => Except.error Err.indexError
  | some row0 => sparkSplitsGo df.rows.length (df.schema.map (fun f => f.name)) row0 df.schema

/-- The spark branch of the test-input fixing (convert.py lines 298-337). -/
def sparkCanon (cfg : ExtraConfig) (df : SparkDF) : Except Err ExtraConfig :=
  let names := df.schema.map (fun f => f.name)
  let n := names.length
  match sparkSplits df with
  | Except.error e => Except.error e
  | Except.ok splits =>
    match splits with
    | [] => Except.error Err.indexError
    | [a] =>
      Except.ok { cfg with n_inputs := some n, n_features := some n,
                           test_input := some (PyVal.ndarray a),
                           input_names := some names }
    | _ =>
      Except.ok { cfg with n_inputs := some n, n_features := some n,
                           test_input := some (PyVal.pytuple (splits.map PyVal.ndarray)),
                           input_names := some names }

/-- "Fix the test_input type" (convert.py lines 277-338): when the
`TEST_INPUT` key is present, coerce a list to an ndarray; validate a tuple of
ndarrays elementwise (all ndarray, all 2-d) and record the summed column
count and the tuple length; split a pandas or spark dataframe columnwise.
Other values pass through unchanged. -/
def fixTestInput (cfg : ExtraConfig) : Except Err ExtraConfig :=
  match cfg.test_input with
  | none => Except.ok cfg
  | some ti =>
    match ti with
    | PyVal.pylist xs =>
      match npArrayOfList xs with
      | Except.error e => Except.error e
      | Except.ok a => Except.ok { cfg with test_input := some (PyVal.ndarray a) }
    | PyVal.pytuple xs =>
      if xs.all isNdarray then
        if xs.all nd2dim then
          Except.ok { cfg with n_features := some (sumCols xs), n_inputs := some xs.length }
        else Except.error Err.unsupportedInputRank
      else Except.error Err.unsupportedDataType
    | PyVal.pandas df => pandasCanon cfg df
    | PyVal.spark df => sparkCanon cfg df
    | _ => Except.ok cfg

/-- The default-filling step (convert.py lines 262-275): store a non-`None`,
non-empty test input under `TEST_INPUT` when the key is absent (spark
dataframes always count as non-empty; `len` is only evaluated on non-spark
values, mirroring the short-circuit), then fill the container and thread
defaults. -/
def setDefaults (test_input : PyVal) (cpuCount : Nat) (cfg : ExtraConfig) :
    Except Err ExtraConfig :=
  let step1 : Except Err ExtraConfig :=
    match test_input, cfg.test_input with
    | PyVal.pynone, _ => Except.ok cfg
    | _, some _ => Except.ok cfg
    | ti, none =>
      if isSparkDF ti then Except.ok { cfg with test_input := some ti }
      else
        match pyLen ti with
        | Except.error e => Except.error e
        | Except.ok n =>
          if 0 < n then Except.ok { cfg with test_input := some ti }
          else Except.ok cfg
  match step1 with
  | Except.error e => Except.error e
  | Except.ok cfg1 =>
    let cfg2 := match cfg1.container with
      | none => { cfg1 with container := some true }
      | some _ => cfg1
    let cfg3 := match cfg2.n_threads with
      | none => { cfg2 with n_threads := some cpuCount }
      | some _ => cfg2
    Except.ok cfg3

/-- The whole canonicalization stage of `convert` before the backend checks
(lines 262-339): default filling, test-input fixing, and the reassignment
`test_input = extra_config[TEST_INPUT]` performed when the key is present. -/
def canonStage (test_input : PyVal) (cpuCount : Nat) (cfg : ExtraConfig) :
    Except Err (ExtraConfig × PyVal) :=
  match setDefaults test_input cpuCount cfg with
  | Except.error e => Except.error e
  | Except.ok cfg1 =>
    match cfg1.test_input with
    | none => Except.ok (cfg1, test_input)
    | some _ =>
      match fixTestInput cfg1 with
      | Except.error e => Except.error e
      | Except.ok cfg2 => Except.ok (cfg2, cfg2.test_input.getD PyVal.pynone)

/-- `_supported_backend_check` (convert.py lines 57-62): a `None` lookup
result raises MissingBackend (taxonomy `UnsupportedBackend`). -/
def _supported_backend_check : Option Backend → Except Err Backend
  | none => Except.error Err.unsupportedBackend
  | some b => Except.ok b

/-- `_supported_backend_check_config` (convert.py lines 65-83): the torch.jit
backend requires a test input; the onnx backend requires initial types or a
test input; an ONNX source model requires initial types or a test input. -/
def _supported_backend_check_config (model : Model) (backend : Backend)
    (cfg : ExtraConfig) : Except Err Unit :=
  if backend == Backend.torchjit && cfg.test_input.isNone then
    Except.error Err.missingBackendRequirement
  else if backend == Backend.onnx && cfg.onnx_initial_types.isNone && cfg.test_input.isNone then
    Except.error Err.missingBackendRequirement
  else if _is_onnx_model model && cfg.onnx_initial_types.isNone && cfg.test_input.isNone then
    Except.error Err.featureInferenceFailure
  else Except.ok ()

/-- `_convert_sklearn` (convert.py lines 86-101): deep-copies the model and
hands off to the external parser and graph compiler (out of core scope, they
succeed); the observable outcome is the resolved configuration and dispatch
data. -/
def _convert_sklearn (backend : Backend) (test_input : PyVal) (cfg : ExtraConfig)
    (fam : Family) : Except Err ConvertResult :=
  Except.ok { config := cfg, family := fam, backend := backend,
              testInputPassed := test_input }

/-- `_convert_lightgbm` (convert.py lines 104-113). -/
def _convert_lightgbm (backend : Backend) (test_input : PyVal) (cfg : ExtraConfig) :
    Except Err ConvertResult :=
  _convert_sklearn backend test_input cfg Family.lgbmF

/-- `_convert_xgboost` (convert.py lines 116-143): prefer the model's
`_features_count` attribute; else require a 2-d ndarray test input and take
its column count; else raise (taxonomy `FeatureInferenceFailure`). -/
def _convert_xgboost (m : XgbModel) (backend : Backend) (test_input : PyVal)
    (cfg : ExtraConfig) : Except Err ConvertResult :=
  match m.featuresCount with
  | some k =>
    _convert_sklearn backend test_input { cfg with n_features := some k } Family.xgbF
  | none =>
    match test_input with
    | PyVal.pynone => Except.error Err.featureInferenceFailure
    | ti =>
      match ti with
      | PyVal.ndarray a =>
        if a.shape.length = 2 then
          _convert_sklearn backend ti { cfg with n_features := some (a.shape.getD 1 0) }
            Family.xgbF
        else Except.error Err.featureInferenceFailure
      | _ => Except.error Err.featureInferenceFailure

/-- The dtype table of the ONNX test-input synthesis (convert.py lines
174-187). -/
def kindDtype : OnnxTensorKind → Option Dtype
  | OnnxTensorKind.floatTT => some Dtype.float32
  | OnnxTensorKind.doubleTT => some Dtype.float64
  | OnnxTensorKind.int32TT => some Dtype.int32
  | OnnxTensorKind.int64TT => some Dtype.int64
  | OnnxTensorKind.otherTT => none

/-- `np.array(a, dtype=d)`: retag the dtype; integer targets floor the
values. -/
def castTo (d : Dtype) (a : NpArray) : NpArray :=
  { a with dtype := d,
           data := if d = Dtype.int32 ∨ d = Dtype.int64 then
               a.data.map (fun q => ((⌊q⌋ : Int) : Rat))
             else a.data }

/-- `test_input.shape[1]` (convert.py line 192): AttributeError on a
non-ndarray (including `None`), IndexError on a rank-<2 array. -/
def npShape1 : PyVal → Except Err Nat
  | PyVal.ndarray a =>
    match a.shape.get? 1 with
    | some n => Except.ok n
    | none => Except.error Err.indexError
  | _ => Except.error Err.attributeError

/-- `_convert_onnxml` (convert.py lines 146-203).  With no test input and the
onnx backend, synthesize one from the first initial type: assert shape
information is present (IndexError on an empty list, AssertionError on a
missing shape, the rank-2 assert is taxonomy `UnsupportedInputRank`), draw
`np.random.rand(shape[0], shape[1])` through the caller-supplied generator
`rand`, and cast per the declared kind (unknown kinds are taxonomy
`UnsupportedDataType`).  Then resolve `N_FEATURES` from
`test_input.shape[1]` when absent, and record the graph initializer names. -/
def _convert_onnxml (g : OnnxGraph) (backend : Backend) (test_input : PyVal)
    (rand : Nat → Nat → NpArray) (cfg : ExtraConfig) : Except Err ConvertResult :=
  let step1 : Except Err (PyVal × ExtraConfig) :=
    match test_input with
    | PyVal.pynone =>
      if backend = Backend.onnx then
        match cfg.onnx_initial_types with
        | none => Except.error Err.assertionError
        | some its =>
          match its with
          | [] => Except.error Err.indexError
          | (_, tt) :: _ =>
            match tt.shape with
            | none => Except.error Err.assertionError
            | some shp =>
              if shp.length = 2 then
                match kindDtype tt.kind with
                | none => Except.error Err.unsupportedDataType
                | some dt =>
                  let ti := castTo dt (rand (shp.getD 0 0) (shp.getD 1 0))
                  Except.ok (PyVal.ndarray ti, { cfg with test_input := some (PyVal.ndarray ti) })
              else Except.error Err.unsupportedInputRank
      else Except.ok (PyVal.pynone, cfg)
    | ti => Except.ok (ti, cfg)
  match step1 with
  | Except.error e => Except.error e
  | Except.ok (ti, cfg1) =>
    let step2 : Except Err ExtraConfig :=
      match cfg1.n_features with
      | some _ => Except.ok cfg1
      | none =>
        match npShape1 ti with
        | Except.error e => Except.error e
        | Except.ok n => Except.ok { cfg1 with n_features := some n }
    match step2 with
    | Except.error e => Except.error e
    | Except.ok cfg2 =>
      Except.ok { config := { cfg2 with onnx_inits := some g.inits },
                  family := Family.onnxF, backend := backend, testInputPassed := ti }

/-- `_convert_sparkml` (convert.py lines 206-221): copies the model and hands
off to the external parser/compiler. -/
def _convert_sparkml (backend : Backend) (test_input : PyVal) (cfg : ExtraConfig) :
    Except Err ConvertResult :=
  _convert_sklearn backend test_input cfg Family.sparkmlF

/-- The family dispatch of `convert` (lines 349-361).  The source checks the
XGBoost registry, then the LightGBM registry, then `_is_onnx_model`, then
`_is_sparkml_model`, falling through to sklearn; on the closed `Model` tag
these sequential membership tests are exactly a match. -/
def dispatch (model : Model) (backend : Backend) (test_input : PyVal)
    (rand : Nat → Nat → NpArray) (cfg : ExtraConfig) : Except Err ConvertResult :=
  match model with
  | Model.xgb m => _convert_xgboost m backend test_input cfg
  | Model.lgbm => _convert_lightgbm backend test_input cfg
  | Model.onnxProto g => _convert_onnxml g backend test_input rand cfg
  | Model.sparkml => _convert_sparkml backend test_input cfg
  | Model.sklearn => _convert_sklearn backend test_input cfg Family.sklearnF

/-- `convert` (convert.py lines 224-361) on the private configuration copy:
canonicalization stage, backend resolution (`backend.lower()` then the
registry lookup and `_supported_backend_check`), backend/config precondition
checks, then family dispatch.  `rand` embeds `np.random.rand`; `cpuCount`
embeds `psutil.cpu_count(logical=False)`. -/
def convert (model : Model) (backendName : String) (test_input : PyVal)
    (rand : Nat → Nat → NpArray) (cpuCount : Nat) (extra_config : ExtraConfig) :
    Except Err ConvertResult :=
  match canonStage test_input cpuCount extra_config with
  | Except.error e => Except.error e
  | Except.ok (cfg, ti) =>
    match _supported_backend_check (backends (pyLower backendName)) with
    | Except.error e => Except.error e
    | Except.ok backend =>
      match _supported_backend_check_config model backend cfg with
      | Except.error e => Except.error e
      | Except.ok _ => dispatch model backend ti rand cfg

/-- A heap of configuration dictionaries, for the aliasing-sensitive
statement that `convert` never mutates the caller's dictionary.  Addresses
are list indices. -/
def ConfigStore := List ExtraConfig

/-- `convert` under explicit dictionary aliasing.  The source's line 260
(`extra_config = deepcopy(extra_config)`) allocates a fresh dictionary
holding a copy of the caller's cell and rebinds the local name to it; every
subsequent `extra_config[...] = ...` of the call mutates only that fresh
cell, no other dictionary is read during the call, and the fresh cell is
unreachable from the caller, so the incremental mutations collapse to the
pure `convert` on the copied value, with the fresh cell appended to the
store in its final state. -/
def convertStore (s : List ExtraConfig) (i : Nat) (model : Model)
    (backendName : String) (test_input : PyVal) (rand : Nat → Nat → NpArray)
    (cpuCount : Nat) : Except Err ConvertResult × List ExtraConfig :=
  let caller := s.getD i default
  let res := convert model backendName test_input rand cpuCount caller
  let finalPrivate := match res with
    | Except.ok r => r.config
    | Except.error _ => caller
  (res, s ++ [finalPrivate])

/-- Is an `Except` computation a success? -/
def isOkE {α : Type} : Except Err α → Bool
  | Except.ok _ => true
  | Except.error _ => false

/-- A concrete random-number generator satisfying the `np.random.rand`
contract: an array of the requested 2-d shape with float64 dtype. -/
def exRand : Nat → Nat → NpArray := fun r c =>
  { shape := [r, c], dtype := Dtype.float64, data := List.replicate (r * c) (1/2) }

/-- A configuration carrying one declared ONNX initial type:
a float tensor of shape `[1, 2]`. -/
def exOnnxCfg : ExtraConfig :=
  { onnx_initial_types := some [("input", ⟨OnnxTensorKind.floatTT, some [1, 2]⟩)] }

/-- The per-array views of a CanonicalInput value: a single 2-d array, or
the arrays of an ordered group. -/
def canonArrays : PyVal → List NpArray
  | PyVal.ndarray a => [a]
  | PyVal.pytuple xs => xs.filterMap (fun v =>
      match v with
      | PyVal.ndarray a => some a
      | _ => none)
  | _ => []

/-- The sum of per-array column counts of a CanonicalInput value. -/
def canonicalColSum : PyVal → Nat
  | PyVal.ndarray a => a.shape.getD 1 0
  | PyVal.pytuple xs => sumCols xs
  | _ => 0

/-- A tabular frame with three columns "a", "b", "c" of two rows each
(scenario 3 of the spec). -/
def exPandasDF : PandasDF := ⟨[("a", [1, 2]), ("b", [3, 4]), ("c", [5, 6])]⟩

/-- A configuration supplying `exPandasDF` as the test input. -/
def exPandasCfg : ExtraConfig := { test_input := some (PyVal.pandas exPandasDF) }

/-- The canonicalized configuration `fixTestInput` produces from
`exPandasCfg`: three single-column (2, 1) arrays, counts 3, names in
declaration order. -/
def exPandasOut : ExtraConfig :=
  { test_input := some (PyVal.pytuple
      [PyVal.ndarray ⟨[2, 1], Dtype.float64, [1, 2]⟩,
       PyVal.ndarray ⟨[2, 1], Dtype.float64, [3, 4]⟩,
       PyVal.ndarray ⟨[2, 1], Dtype.float64, [5, 6]⟩]),
    n_features := some 3, n_inputs := some 3, input_names := some ["a", "b", "c"] }

/-- A distributed (spark) frame with a single vector-valued field of width 2
and one row. -/
def exSparkDF : SparkDF :=
  { schema := [⟨"v", SparkType.denseVector⟩], rows := [[SparkCell.dense 2]] }

/-- A configuration supplying `exSparkDF` as the test input. -/
def exSparkCfg : ExtraConfig := { test_input := some (PyVal.spark exSparkDF) }

/-- The canonicalized configuration `fixTestInput` produces from
`exSparkCfg`: a single all-zero (1, 2) array, counts 1, the field name. -/
def exSparkOut : ExtraConfig :=
  { test_input := some (PyVal.ndarray ⟨[1, 2], Dtype.float64, [0, 0]⟩),
    n_features := some 1, n_inputs := some 1, input_names := some ["v"] }

/-- A two-element tuple test input: a (2, 3) array and a (2, 1) array. -/
def exTupleCfg : ExtraConfig :=
  { test_input := some (PyVal.pytuple
      [PyVal.ndarray ⟨[2, 3], Dtype.float64, List.replicate 6 1⟩,
       PyVal.ndarray ⟨[2, 1], Dtype.float64, List.replicate 2 2⟩]) }

/-- Summing the constant 1 over a list counts its elements. -/
theorem sum_map_one {α : Type} (l : List α) : (l.map fun _ => (1 : Nat)).sum = l.length := by
  induction l with
  | nil => rfl
  | cons x xs ih => simp [ih, Nat.add_comm]

/-- `canonArrays` recovers the arrays of a tuple of ndarray values. -/
theorem canonArrays_tuple_map (ss : List NpArray) :
    canonArrays (PyVal.pytuple (ss.map PyVal.ndarray)) = ss := by
  simp only [canonArrays]
  induction ss with
  | nil => rfl
  | cons a t ih => simp only [List.map_cons, List.filterMap_cons, ih]

/-- `sumCols` over a tuple of ndarray values is the sum of their `shape[1]`
entries. -/
theorem sumCols_map_ndarray (ss : List NpArray) :
    sumCols (ss.map PyVal.ndarray) = (ss.map fun a => a.shape.getD 1 0).sum := by
  simp only [sumCols, List.map_map]
  rfl

/-- The single-column splits of a tabular frame have column counts summing
to the number of columns. -/
theorem sumCols_single_col_splits (l : List (String × List Rat)) :
    sumCols ((l.map fun c =>
      ({ shape := [c.2.length, 1], dtype := Dtype.float64, data := c.2 } : NpArray)).map
        PyVal.ndarray) = l.length := by
  induction l with
  | nil => rfl
  | cons c t ih =>
    simp only [List.map_cons, sumCols, List.sum_cons, List.length_cons] at *
    rw [show pyCols (PyVal.ndarray
        ({ shape := [c.2.length, 1], dtype := Dtype.float64, data := c.2 } : NpArray)) = 1 from rfl]
    omega

/-- What a successful pandas canonicalization produces: both counts equal
the column count, the names are the column names in order, and the canonical
arrays are the single-column `(rows, 1)` splits, whose column counts sum to
the column count. -/
theorem pandasCanon_ok (cfg : ExtraConfig) (df : PandasDF) (cfg' : ExtraConfig)
    (hok : pandasCanon cfg df = Except.ok cfg') :
    cfg'.n_features = some df.cols.length ∧
    canonicalColSum (cfg'.test_input.getD PyVal.pynone) = df.cols.length ∧
    cfg'.n_inputs = some df.cols.length ∧
    cfg'.input_names = some (df.cols.map fun c => c.1) ∧
    canonArrays (cfg'.test_input.getD PyVal.pynone) =
      df.cols.map (fun c =>
        ({ shape := [c.2.length, 1], dtype := Dtype.float64, data := c.2 } : NpArray)) := by
  cases hc : df.cols with
  | nil =>
    simp only [pandasCanon, hc, List.map_nil] at hok
    cases hok
  | cons c t =>
    cases t with
    | nil =>
      simp only [pandasCanon, hc, List.map_cons, List.map_nil] at hok
      cases hok
      simp [canonicalColSum, canonArrays, hc]
    | cons c2 t2 =>
      simp only [pandasCanon, hc, List.map_cons] at hok
      cases hok
      refine ⟨by simp, ?_, by simp, by simp, ?_⟩
      · exact sumCols_single_col_splits (c :: c2 :: t2)
      · exact canonArrays_tuple_map ((c :: c2 :: t2).map fun c =>
          ({ shape := [c.2.length, 1], dtype := Dtype.float64, data := c.2 } : NpArray))

/-- What a successful spark canonicalization produces: both counts equal the
number of schema fields, the names are the field names in order, and the
canonical arrays are exactly the schema-derived splits. -/
theorem sparkCanon_ok (cfg : ExtraConfig) (df : SparkDF) (cfg' : ExtraConfig)
    (hok : sparkCanon cfg df = Except.ok cfg') :
    cfg'.n_features = some df.schema.length ∧
    cfg'.n_inputs = some df.schema.length ∧
    cfg'.input_names = some (df.schema.map fun f => f.name) ∧
    ∃ splits, sparkSplits df = Except.ok splits ∧
      canonArrays (cfg'.test_input.getD PyVal.pynone) = splits := by
  simp only [sparkCanon] at hok
  cases hs : sparkSplits df with
  | error e => rw [hs] at hok; cases hok
  | ok splits =>
    rw [hs] at hok
    cases splits with
    | nil => cases hok
    | cons a t =>
      cases t with
      | nil =>
        cases hok
        exact ⟨by simp, by simp, rfl, [a], rfl, rfl⟩
      | cons a2 t2 =>
        cases hok
        exact ⟨by simp, by simp, rfl, a :: a2 :: t2, rfl, canonArrays_tuple_map _⟩

/-- C1: backend names are resolved case-insensitively (only the lowercased
name matters) against the static registry; when the lowercased name is not
registered the call has the same outcome for every model — no model
inspection or family dispatch happens first — and that outcome is the
UnsupportedBackend failure (provided the model-independent canonicalization
of the test input itself raises nothing). -/
theorem backend_resolution_fails_fast
    (bn bn2 : String) (m m2 : Model) (ti : PyVal) (cfg : ExtraConfig)
    (rand : Nat → Nat → NpArray) (cpu : Nat) :
    (pyLower bn = pyLower bn2 →
      convert m bn ti rand cpu cfg = convert m bn2 ti rand cpu cfg) ∧
    (backends (pyLower bn) = none →
      convert m bn ti rand cpu cfg = convert m2 bn ti rand cpu cfg) ∧
    (backends (pyLower bn) = none → isOkE (canonStage ti cpu cfg) = true →
      convert m bn ti rand cpu cfg = Except.error Err.unsupportedBackend) := by
  refine ⟨fun h => by simp only [convert, h], fun hb => ?_, fun hb hc => ?_⟩
  · cases hcs : canonStage ti cpu cfg with
    | error e => simp only [convert, hcs]
    | ok p => simp only [convert, hcs, hb, _supported_backend_check]
  · cases hcs : canonStage ti cpu cfg with
    | error e => rw [hcs] at hc; simp [isOkE] at hc
    | ok p => simp only [convert, hcs, hb, _supported_backend_check]

/-- Witness for C1 at the unregistered name "tensorflow" (scenario 6),
with two different models one of which is an XGBoost model with no
feature-count attribute (an otherwise invalid conversion request). -/
theorem backend_resolution_fails_fast_witness :
    convert Model.sklearn "TensorFlow" PyVal.pynone exRand 4 {} =
        convert Model.sklearn "tensorflow" PyVal.pynone exRand 4 {} ∧
    convert Model.sklearn "tensorflow" PyVal.pynone exRand 4 {} =
        convert (Model.xgb ⟨none⟩) "tensorflow" PyVal.pynone exRand 4 {} ∧
    convert Model.sklearn "tensorflow" PyVal.pynone exRand 4 {} =
        Except.error Err.unsupportedBackend :=
  ⟨(backend_resolution_fails_fast "TensorFlow" "tensorflow" Model.sklearn (Model.xgb ⟨none⟩)
      PyVal.pynone {} exRand 4).1 rfl,
   (backend_resolution_fails_fast "tensorflow" "tensorflow" Model.sklearn (Model.xgb ⟨none⟩)
      PyVal.pynone {} exRand 4).2.1 rfl,
   (backend_resolution_fails_fast "tensorflow" "tensorflow" Model.sklearn (Model.xgb ⟨none⟩)
      PyVal.pynone {} exRand 4).2.2 rfl rfl⟩

/-- C2: for an XGBoost-family model, an explicit `_features_count` attribute
wins; otherwise a two-dimensional ndarray test input supplies its column
count; otherwise (absent or not a 2-d ndarray) the conversion fails with
FeatureInferenceFailure. -/
theorem xgboost_feature_inference (m : XgbModel) (b : Backend) (ti : PyVal)
    (cfg : ExtraConfig) :
    (∀ k, m.featuresCount = some k →
      _convert_xgboost m b ti cfg =
        Except.ok ⟨{ cfg with n_features := some k }, Family.xgbF, b, ti⟩) ∧
    (m.featuresCount = none → ∀ a, ti = PyVal.ndarray a → a.shape.length = 2 →
      _convert_xgboost m b ti cfg =
        Except.ok ⟨{ cfg with n_features := some (a.shape.getD 1 0) }, Family.xgbF, b, ti⟩) ∧
    (m.featuresCount = none → (¬ ∃ a, ti = PyVal.ndarray a ∧ a.shape.length = 2) →
      _convert_xgboost m b ti cfg = Except.error Err.featureInferenceFailure) := by
  refine ⟨fun k hk => ?_, fun hn a ha h2 => ?_, fun hn hno => ?_⟩
  · simp only [_convert_xgboost, hk, _convert_sklearn]
  · subst ha
    simp only [_convert_xgboost, hn, _convert_sklearn, h2, if_true]
  · cases ti with
    | ndarray a =>
      have h2 : ¬ a.shape.length = 2 := fun h => hno ⟨a, rfl, h⟩
      simp only [_convert_xgboost, hn, h2, if_false]
    | pynone => simp only [_convert_xgboost, hn]
    | pylist xs => simp only [_convert_xgboost, hn]
    | pytuple xs => simp only [_convert_xgboost, hn]
    | scalar v => simp only [_convert_xgboost, hn]
    | pandas df => simp only [_convert_xgboost, hn]
    | spark df => simp only [_convert_xgboost, hn]

/-- Witness for C2: an explicit attribute of 5 is used verbatim; with no
attribute and no input the conversion fails; with no attribute and a 3×4
array the column count 4 is used. -/
theorem xgboost_feature_inference_witness :
    _convert_xgboost ⟨some 5⟩ Backend.torch PyVal.pynone {} =
      Except.ok ⟨{ n_features := some 5 }, Family.xgbF, Backend.torch, PyVal.pynone⟩ ∧
    _convert_xgboost ⟨none⟩ Backend.torch PyVal.pynone {} =
      Except.error Err.featureInferenceFailure ∧
    _convert_xgboost ⟨none⟩ Backend.torch
        (PyVal.ndarray ⟨[3, 4], Dtype.float64, List.replicate 12 0⟩) {} =
      Except.ok ⟨{ n_features := some 4 }, Family.xgbF, Backend.torch,
        PyVal.ndarray ⟨[3, 4], Dtype.float64, List.replicate 12 0⟩⟩ :=
  ⟨(xgboost_feature_inference ⟨some 5⟩ Backend.torch PyVal.pynone {}).1 5 rfl,
   (xgboost_feature_inference ⟨none⟩ Backend.torch PyVal.pynone {}).2.2 rfl
     (by rintro ⟨a, ha, -⟩; exact PyVal.noConfusion ha),
   (xgboost_feature_inference ⟨none⟩ Backend.torch
       (PyVal.ndarray ⟨[3, 4], Dtype.float64, List.replicate 12 0⟩) {}).2.1 rfl
     ⟨[3, 4], Dtype.float64, List.replicate 12 0⟩ rfl rfl⟩

/-- C3 counterexample: a conversion whose sample input is a distributed
frame with one vector-valued field of width 2 resolves FEATURE_COUNT to 1
(the number of fields), while the CanonicalInput ultimately produced is a
single (1, 2) array whose per-array column counts sum to 2. -/
theorem feature_count_invariant_counterexample :
    (convert Model.sklearn "torch" (PyVal.spark exSparkDF) exRand 4 {}).toOption.map
        (fun r => (r.config.n_features,
                   canonicalColSum (r.config.test_input.getD PyVal.pynone)))
      = some (some 1, 2) ∧ (1 : Nat) ≠ 2 :=
  ⟨rfl, by decide⟩

/-- C3 amended: when a feature count is resolved during canonicalization, it
equals the sum of the per-array column counts of the CanonicalInput produced
on the ordered-group (tuple) and tabular-frame paths; on the
distributed-tabular-frame path it instead equals the number of schema fields
(which undercounts vector-valued fields of width greater than one). -/
theorem feature_count_invariant_amended (cfg cfg' : ExtraConfig)
    (hok : fixTestInput cfg = Except.ok cfg') :
    (∀ xs, cfg.test_input = some (PyVal.pytuple xs) →
      cfg'.n_features = some (canonicalColSum (cfg'.test_input.getD PyVal.pynone))) ∧
    (∀ df, cfg.test_input = some (PyVal.pandas df) →
      cfg'.n_features = some (canonicalColSum (cfg'.test_input.getD PyVal.pynone))) ∧
    (∀ df, cfg.test_input = some (PyVal.spark df) →
      cfg'.n_features = some df.schema.length) := by
  refine ⟨fun xs h => ?_, fun df h => ?_, fun df h => ?_⟩
  · simp only [fixTestInput, h] at hok
    by_cases h1 : xs.all isNdarray = true
    · by_cases h2 : xs.all nd2dim = true
      · simp only [h1, h2, if_true] at hok
        cases hok
        simp [canonicalColSum, h]
      · simp [h1, h2] at hok
    · simp [h1] at hok
  · simp only [fixTestInput, h] at hok
    obtain ⟨h1, h2, -⟩ := pandasCanon_ok cfg df cfg' hok
    rw [h1, h2]
  · simp only [fixTestInput, h] at hok
    exact (sparkCanon_ok cfg df cfg' hok).1

/-- Witness for C3 amended: the three-column tabular frame resolves
FEATURE_COUNT 3, equal to the summed column counts of its three
single-column splits. -/
theorem feature_count_invariant_amended_witness :
    exPandasOut.n_features = some (canonicalColSum (exPandasOut.test_input.getD PyVal.pynone)) :=
  (feature_count_invariant_amended exPandasCfg exPandasOut rfl).2.1 exPandasDF rfl

/-- C6: a tuple sample input requires every element to independently be a
two-dimensional ndarray — a group containing a non-array or
non-two-dimensional element is rejected — and on success the resolved total
feature count is the sum of the per-array column counts and the resolved
input count is the group length. -/
theorem tuple_input_group (cfg : ExtraConfig) (xs : List PyVal)
    (h : cfg.test_input = some (PyVal.pytuple xs)) :
    ((xs.all isNdarray = true ∧ xs.all nd2dim = true) →
      fixTestInput cfg =
        Except.ok { cfg with n_features := some (sumCols xs), n_inputs := some xs.length }) ∧
    (¬ (xs.all isNdarray = true ∧ xs.all nd2dim = true) →
      isOkE (fixTestInput cfg) = false) := by
  constructor
  · rintro ⟨h1, h2⟩
    simp only [fixTestInput, h, h1, h2, if_true]
  · intro hno
    simp only [fixTestInput, h]
    by_cases h1 : xs.all isNdarray = true
    · have h2 : ¬ xs.all nd2dim = true := fun h2 => hno ⟨h1, h2⟩
      simp [h1, h2, isOkE]
    · simp [h1, isOkE]

/-- Witness for C6: a ((2,3), (2,1)) tuple canonicalizes to feature count 4
and input count 2; a tuple holding a one-dimensional array is rejected. -/
theorem tuple_input_group_witness :
    fixTestInput exTupleCfg =
      Except.ok { exTupleCfg with n_features := some 4, n_inputs := some 2 } ∧
    isOkE (fixTestInput { test_input := some (PyVal.pytuple
      [PyVal.ndarray ⟨[6], Dtype.float64, List.replicate 6 1⟩]) }) = false :=
  ⟨(tuple_input_group exTupleCfg
      [PyVal.ndarray ⟨[2, 3], Dtype.float64, List.replicate 6 1⟩,
       PyVal.ndarray ⟨[2, 1], Dtype.float64, List.replicate 2 2⟩] rfl).1 ⟨rfl, rfl⟩,
   (tuple_input_group { test_input := some (PyVal.pytuple
       [PyVal.ndarray ⟨[6], Dtype.float64, List.replicate 6 1⟩]) }
       [PyVal.ndarray ⟨[6], Dtype.float64, List.replicate 6 1⟩] rfl).2
     (fun hc => absurd hc.2 (by decide))⟩

/-- C7 counterexample: a tabular frame with zero columns (n = 0) is not
canonicalized into n arrays with counts n — the call raises IndexError
instead of producing the claimed outputs. -/
theorem pandas_zero_columns_counterexample :
    fixTestInput { test_input := some (PyVal.pandas ⟨[]⟩) } = Except.error Err.indexError ∧
    isOkE (fixTestInput { test_input := some (PyVal.pandas ⟨[]⟩) }) = false :=
  ⟨rfl, rfl⟩

/-- C7 amended: for a tabular frame with n ≥ 1 columns, canonicalization
produces the n single-column (rows, 1) splits, the resolved input names are
the column names in declaration order, and both the resolved input count and
the resolved feature count equal n. -/
theorem pandas_frame_canonicalization (cfg : ExtraConfig) (df : PandasDF)
    (h : cfg.test_input = some (PyVal.pandas df)) (hne : df.cols ≠ []) :
    ∃ cfg', fixTestInput cfg = Except.ok cfg' ∧
      cfg'.n_inputs = some df.cols.length ∧
      cfg'.n_features = some df.cols.length ∧
      cfg'.input_names = some (df.cols.map fun c => c.1) ∧
      canonArrays (cfg'.test_input.getD PyVal.pynone) =
        df.cols.map (fun c =>
          ({ shape := [c.2.length, 1], dtype := Dtype.float64, data := c.2 } : NpArray)) := by
  have hfix : fixTestInput cfg = pandasCanon cfg df := by simp only [fixTestInput, h]
  have hsucc : isOkE (pandasCanon cfg df) = true := by
    cases hc : df.cols with
    | nil => exact absurd hc hne
    | cons c t =>
      cases t with
      | nil => simp only [pandasCanon, hc, List.map_cons, List.map_nil, isOkE]
      | cons c2 t2 => simp only [pandasCanon, hc, List.map_cons, isOkE]
  cases hok : pandasCanon cfg df with
  | error e => rw [hok] at hsucc; simp [isOkE] at hsucc
  | ok cfg' =>
    obtain ⟨h1, -, h3, h4, h5⟩ := pandasCanon_ok cfg df cfg' hok
    exact ⟨cfg', by rw [hfix, hok], h3, h1, h4, h5⟩

/-- Witness for C7 amended at the three-column frame of scenario 3:
INPUT_COUNT = 3, FEATURE_COUNT = 3, INPUT_NAMES = ["a", "b", "c"]. -/
theorem pandas_frame_canonicalization_witness :
    (fixTestInput exPandasCfg).toOption.map
      (fun c => (c.n_inputs, c.n_features, c.input_names)) =
    some (some 3, some 3, some ["a", "b", "c"]) := by
  obtain ⟨cfg', hok, h1, h2, h3, -⟩ :=
    pandas_frame_canonicalization exPandasCfg exPandasDF rfl (by decide)
  rw [hok]
  show some (cfg'.n_inputs, cfg'.n_features, cfg'.input_names) = _
  rw [h1, h2, h3]
  rfl

/-- With no test-input argument and no TEST_INPUT key, the canonicalization
stage only fills the container and thread defaults: the test input stays
absent and every other configuration entry is preserved. -/
theorem canonStage_pynone (cpu : Nat) (cfg : ExtraConfig) (h : cfg.test_input = none) :
    ∃ cfg1, canonStage PyVal.pynone cpu cfg = Except.ok (cfg1, PyVal.pynone) ∧
      cfg1.test_input = none ∧
      cfg1.n_features = cfg.n_features ∧
      cfg1.n_inputs = cfg.n_inputs ∧
      cfg1.input_names = cfg.input_names ∧
      cfg1.onnx_initial_types = cfg.onnx_initial_types ∧
      cfg1.onnx_inits = cfg.onnx_inits := by
  cases hcont : cfg.container with
  | none =>
    cases hth : cfg.n_threads with
    | none =>
      exact ⟨{ cfg with container := some true, n_threads := some cpu },
        by simp only [canonStage, setDefaults, hcont, hth, h], h, rfl, rfl, rfl, rfl, rfl⟩
    | some th =>
      exact ⟨{ cfg with container := some true },
        by simp only [canonStage, setDefaults, hcont, hth, h], h, rfl, rfl, rfl, rfl, rfl⟩
  | some b =>
    cases hth : cfg.n_threads with
    | none =>
      exact ⟨{ cfg with n_threads := some cpu },
        by simp only [canonStage, setDefaults, hcont, hth, h], h, rfl, rfl, rfl, rfl, rfl⟩
    | some th =>
      exact ⟨cfg,
        by simp only [canonStage, setDefaults, hcont, hth, h], h, rfl, rfl, rfl, rfl, rfl⟩

/-- C5 counterexample: an ONNX source model with neither declared input
shapes nor a sample input, converted to the traced-execution backend
torch.jit, fails with MissingBackendRequirement, not FeatureInferenceFailure
— so the FeatureInferenceFailure outcome is not independent of the chosen
backend. -/
theorem backend_preconditions_counterexample :
    convert (Model.onnxProto ⟨[]⟩) "torch.jit" PyVal.pynone exRand 4 {} =
      Except.error Err.missingBackendRequirement ∧
    Err.missingBackendRequirement ≠ Err.featureInferenceFailure :=
  ⟨rfl, by decide⟩

/-- C5 amended: with no sample input in the configuration, and before any
family-specific parsing (the failures below hold for every model): the
traced-execution backend torch.jit fails with MissingBackendRequirement; the
exported-graph backend onnx fails with MissingBackendRequirement when the
declared input shapes are also absent; and an ONNX source model converted to
a backend whose own requirements pass (torch) fails with
FeatureInferenceFailure when the declared input shapes are also absent. -/
theorem backend_preconditions (model : Model) (bn : String) (cfg : ExtraConfig)
    (rand : Nat → Nat → NpArray) (cpu : Nat) (hti : cfg.test_input = none) :
    (backends (pyLower bn) = some Backend.torchjit →
      convert model bn PyVal.pynone rand cpu cfg = Except.error Err.missingBackendRequirement) ∧
    (backends (pyLower bn) = some Backend.onnx → cfg.onnx_initial_types = none →
      convert model bn PyVal.pynone rand cpu cfg = Except.error Err.missingBackendRequirement) ∧
    (backends (pyLower bn) = some Backend.torch → cfg.onnx_initial_types = none →
      _is_onnx_model model = true →
      convert model bn PyVal.pynone rand cpu cfg = Except.error Err.featureInferenceFailure) := by
  obtain ⟨cfg1, hcs, h1, -, -, -, h5, -⟩ := canonStage_pynone cpu cfg hti
  refine ⟨fun hb => ?_, fun hb hit => ?_, fun hb hit honnx => ?_⟩
  · simp [convert, hcs, hb, _supported_backend_check, _supported_backend_check_config, h1]
  · simp [convert, hcs, hb, _supported_backend_check, _supported_backend_check_config, h1,
      h5, hit]
  · simp [convert, hcs, hb, _supported_backend_check, _supported_backend_check_config, h1,
      h5, hit, honnx]

/-- Witness for C5 amended at concrete calls with an empty configuration:
torch.jit and onnx fail with MissingBackendRequirement for a generic model;
torch with an ONNX source model fails with FeatureInferenceFailure. -/
theorem backend_preconditions_witness :
    convert Model.sklearn "torch.jit" PyVal.pynone exRand 4 {} =
      Except.error Err.missingBackendRequirement ∧
    convert Model.sklearn "onnx" PyVal.pynone exRand 4 {} =
      Except.error Err.missingBackendRequirement ∧
    convert (Model.onnxProto ⟨[]⟩) "torch" PyVal.pynone exRand 4 {} =
      Except.error Err.featureInferenceFailure :=
  ⟨(backend_preconditions Model.sklearn "torch.jit" {} exRand 4 rfl).1 rfl,
   (backend_preconditions Model.sklearn "onnx" {} exRand 4 rfl).2.1 rfl rfl,
   (backend_preconditions (Model.onnxProto ⟨[]⟩) "torch" {} exRand 4 rfl).2.2 rfl rfl rfl⟩

/-- What `_convert_onnxml` does on the onnx backend with no test input and a
declared 2-d first initial type: it synthesizes the test input by casting
the drawn random array to the declared kind (recording it in the
configuration and resolving N_FEATURES from its column count), or raises
UnsupportedDataType for an unrecognized kind. -/
theorem onnxml_synth (g : OnnxGraph) (nm : String) (tt : OnnxTensorType)
    (rest : List (String × OnnxTensorType)) (r c : Nat)
    (rand : Nat → Nat → NpArray) (cfg1 : ExtraConfig)
    (hits : cfg1.onnx_initial_types = some ((nm, tt) :: rest))
    (hnf : cfg1.n_features = none)
    (hshape : tt.shape = some [r, c])
    (hrand : (rand r c).shape = [r, c]) :
    (∀ dt, kindDtype tt.kind = some dt →
      _convert_onnxml g Backend.onnx PyVal.pynone rand cfg1 =
        Except.ok { config := { cfg1 with
                      test_input := some (PyVal.ndarray (castTo dt (rand r c))),
                      n_features := some c, onnx_inits := some g.inits },
                    family := Family.onnxF, backend := Backend.onnx,
                    testInputPassed := PyVal.ndarray (castTo dt (rand r c)) }) ∧
    (kindDtype tt.kind = none →
      _convert_onnxml g Backend.onnx PyVal.pynone rand cfg1 =
        Except.error Err.unsupportedDataType) := by
  constructor
  · intro dt hdt
    have hshape2 : (castTo dt (rand r c)).shape = [r, c] := by
      simp [castTo, hrand]
    simp only [_convert_onnxml, hits, hshape, hdt, hnf, npShape1, List.length_cons,
      List.length_nil, List.getD_cons_zero, List.getD_cons_succ, eq_self_iff_true, if_true]
    rw [hshape2]
    rfl
  · intro hdt
    simp only [_convert_onnxml, hits, hshape, hdt, if_pos rfl, List.length_cons,
      List.length_nil]
    simp

/-- C4 counterexample: an ONNX source model with a declared 2-d float input
shape and no sample input, converted to the (non-onnx) torch backend, does
not synthesize a sample input — the call crashes with AttributeError on
`None.shape` instead of succeeding on synthesized data as the claim
predicts. -/
theorem onnx_synthesis_counterexample :
    convert (Model.onnxProto ⟨[]⟩) "torch" PyVal.pynone exRand 4 exOnnxCfg =
      Except.error Err.attributeError :=
  rfl

/-- C4 amended: for an ONNX source model converted *to the onnx backend*
with no sample input present, convert synthesizes a sample input shaped per
the declared two-dimensional input shape and cast to the declared element
dtype when that dtype is one of float32/float64/int32/int64, fails with
UnsupportedDataType for any other declared dtype, and resolves the feature
count from the synthesized input's column count.  (For other backends no
synthesis occurs.) -/
theorem onnx_input_synthesis (g : OnnxGraph) (nm : String) (tt : OnnxTensorType)
    (rest : List (String × OnnxTensorType)) (r c : Nat)
    (rand : Nat → Nat → NpArray) (cpu : Nat) (cfg : ExtraConfig)
    (hti : cfg.test_input = none) (hnf : cfg.n_features = none)
    (hits : cfg.onnx_initial_types = some ((nm, tt) :: rest))
    (hshape : tt.shape = some [r, c])
    (hrand : (rand r c).shape = [r, c]) :
    (∀ dt, kindDtype tt.kind = some dt →
      ∃ res, convert (Model.onnxProto g) "onnx" PyVal.pynone rand cpu cfg = Except.ok res ∧
        res.config.test_input = some (PyVal.ndarray (castTo dt (rand r c))) ∧
        res.testInputPassed = PyVal.ndarray (castTo dt (rand r c)) ∧
        (castTo dt (rand r c)).shape = [r, c] ∧
        (castTo dt (rand r c)).dtype = dt ∧
        res.config.n_features = some c) ∧
    (kindDtype tt.kind = none →
      convert (Model.onnxProto g) "onnx" PyVal.pynone rand cpu cfg =
        Except.error Err.unsupportedDataType) := by
  obtain ⟨cfg1, hcs, ht1, hnf1, -, -, hoit, -⟩ := canonStage_pynone cpu cfg hti
  have hb : _supported_backend_check (backends (pyLower "onnx")) = Except.ok Backend.onnx := rfl
  have hcheck : _supported_backend_check_config (Model.onnxProto g) Backend.onnx cfg1 =
      Except.ok () := by
    simp [_supported_backend_check_config, hoit, hits]
  have hconv : convert (Model.onnxProto g) "onnx" PyVal.pynone rand cpu cfg =
      _convert_onnxml g Backend.onnx PyVal.pynone rand cfg1 := by
    simp only [convert, hcs, hb, hcheck, dispatch]
  obtain ⟨hsome, hnone⟩ := onnxml_synth g nm tt rest r c rand cfg1 (hoit.trans hits)
    (hnf1.trans hnf) hshape hrand
  refine ⟨fun dt hdt => ?_, fun hdt => hconv.trans (hnone hdt)⟩
  refine ⟨_, hconv.trans (hsome dt hdt), rfl, rfl, by simp [castTo, hrand], ?_, rfl⟩
  cases dt <;> simp [castTo]

/-- Witness for C4 amended: the declared float [1, 2] input type with the
onnx backend synthesizes a (1, 2) float32 array and resolves the feature
count to 2. -/
theorem onnx_input_synthesis_witness :
    (convert (Model.onnxProto ⟨[]⟩) "onnx" PyVal.pynone exRand 4 exOnnxCfg).toOption.map
      (fun res => (res.config.test_input, res.config.n_features)) =
    some (some (PyVal.ndarray (castTo Dtype.float32 (exRand 1 2))), some 2) := by
  obtain ⟨res, hok, h1, -, -, -, h2⟩ :=
    ((onnx_input_synthesis ⟨[]⟩ "input" ⟨OnnxTensorKind.floatTT, some [1, 2]⟩ [] 1 2
        exRand 4 exOnnxCfg rfl rfl rfl rfl rfl).1 Dtype.float32 rfl)
  rw [hok]
  show some (res.config.test_input, res.config.n_features) = _
  rw [h1, h2]

/-- C8: under explicit dictionary aliasing, `convert` never mutates the
caller's configuration cell — after the call every pre-existing store cell
(the caller's included) holds exactly what it held before — and consequently
no configuration state flows between two successive calls through a shared
(default) configuration cell: a second call started from the same cell
behaves exactly as it would have against the original store. -/
theorem caller_config_not_mutated (s : List ExtraConfig) (i : Nat) (m m2 : Model)
    (bn bn2 : String) (ti ti2 : PyVal) (rand rand2 : Nat → Nat → NpArray)
    (cpu cpu2 : Nat) (hi : i < s.length) :
    (∀ j, j < s.length →
      ((convertStore s i m bn ti rand cpu).2)[j]? = s[j]?) ∧
    ((convertStore ((convertStore s i m bn ti rand cpu).2) i m2 bn2 ti2 rand2 cpu2).1 =
      (convertStore s i m2 bn2 ti2 rand2 cpu2).1) := by
  constructor
  · intro j hj
    exact List.getElem?_append_left hj
  · simp only [convertStore]
    rw [List.getD_append _ _ _ _ hi]

/-- Witness for C8: a one-cell store holding the empty configuration is
unchanged by a conversion call, and a second call from the same cell returns
what it would have returned against the original store. -/
theorem caller_config_not_mutated_witness :
    ((convertStore [({} : ExtraConfig)] 0 Model.sklearn "torch"
        (PyVal.ndarray ⟨[2, 2], Dtype.float64, [1, 2, 3, 4]⟩) exRand 4).2)[0]? =
      [({} : ExtraConfig)][0]? ∧
    ((convertStore ((convertStore [({} : ExtraConfig)] 0 Model.sklearn "torch"
          (PyVal.ndarray ⟨[2, 2], Dtype.float64, [1, 2, 3, 4]⟩) exRand 4).2) 0
        (Model.xgb ⟨none⟩) "torch" PyVal.pynone exRand 4).1 =
      (convertStore [({} : ExtraConfig)] 0
        (Model.xgb ⟨none⟩) "torch" PyVal.pynone exRand 4).1) :=
  ⟨(caller_config_not_mutated [({} : ExtraConfig)] 0 Model.sklearn (Model.xgb ⟨none⟩)
      "torch" "torch" (PyVal.ndarray ⟨[2, 2], Dtype.float64, [1, 2, 3, 4]⟩) PyVal.pynone
      exRand exRand 4 4 (by decide)).1 0 (by decide),
   (caller_config_not_mutated [({} : ExtraConfig)] 0 Model.sklearn (Model.xgb ⟨none⟩)
      "torch" "torch" (PyVal.ndarray ⟨[2, 2], Dtype.float64, [1, 2, 3, 4]⟩) PyVal.pynone
      exRand exRand 4 4 (by decide)).2⟩

/-- C9: an empty (length-zero, non-distributed) sample input is never stored
under the TEST_INPUT key (third conjunct: the canonicalization stage leaves
the key absent, exactly as for an absent input) — but the call does NOT
behave exactly as if no sample input had been supplied: the empty value
still flows to the family converter, so an ONNX model on the onnx backend
with declared input shapes crashes with AttributeError on the empty list,
while the genuinely absent input synthesizes a sample and succeeds. -/
theorem empty_test_input_divergence :
    convert (Model.onnxProto ⟨[]⟩) "onnx" (PyVal.pylist []) exRand 4 exOnnxCfg =
      Except.error Err.attributeError ∧
    isOkE (convert (Model.onnxProto ⟨[]⟩) "onnx" PyVal.pynone exRand 4 exOnnxCfg) = true ∧
    canonStage (PyVal.pylist []) 4 exOnnxCfg =
      Except.ok ({ exOnnxCfg with container := some true, n_threads := some 4 },
        PyVal.pylist []) :=
  ⟨rfl, rfl, rfl⟩

/-- Every split the spark loop builds is an all-zero array of shape
(size, width). -/
theorem sparkSplitsGo_zeros (size : Nat) (names : List String) (row0 : List SparkCell)
    (fields : List SparkField) (ss : List NpArray)
    (h : sparkSplitsGo size names row0 fields = Except.ok ss) :
    ∀ a ∈ ss, a.data = List.replicate (size * a.shape.getD 1 0) 0 ∧
      a.shape = [size, a.shape.getD 1 0] := by
  induction fields generalizing ss with
  | nil =>
    cases h
    intro a ha
    cases ha
  | cons f fs ih =>
    simp only [sparkSplitsGo] at h
    cases hl : rowLookup names row0 f.name with
    | none => simp only [hl] at h; cases h
    | some cell =>
      simp only [hl] at h
      cases hspec : sparkFieldSpec f.dataType cell with
      | error e => simp only [hspec] at h; cases h
      | ok p =>
        obtain ⟨dt, w⟩ := p
        simp only [hspec] at h
        cases hrec : sparkSplitsGo size names row0 fs with
        | error e => simp only [hrec] at h; cases h
        | ok rest =>
          simp only [hrec] at h
          cases h
          intro a ha
          rcases List.mem_cons.mp ha with h1 | h2
          · subst h1
            exact ⟨rfl, rfl⟩
          · exact ih rest hrec a h2

/-- C10: the canonical arrays produced from a distributed tabular frame
contain only zero values, each with shape (full row count, derived width);
and the canonicalization reads nothing of the frame beyond its schema, its
row count, and its first row — any frame agreeing on those three produces
the identical canonicalized configuration. -/
theorem spark_frame_schema_only (cfg : ExtraConfig) (df : SparkDF) (cfg' : ExtraConfig)
    (h : cfg.test_input = some (PyVal.spark df))
    (hok : fixTestInput cfg = Except.ok cfg') :
    (∀ a ∈ canonArrays (cfg'.test_input.getD PyVal.pynone),
      a.data = List.replicate (df.rows.length * a.shape.getD 1 0) 0 ∧
      a.shape = [df.rows.length, a.shape.getD 1 0]) ∧
    (∀ df2 : SparkDF, df2.schema = df.schema → df2.rows.length = df.rows.length →
      df2.rows.head? = df.rows.head? →
      fixTestInput { cfg with test_input := some (PyVal.spark df2) } = Except.ok cfg') := by
  simp only [fixTestInput, h] at hok
  constructor
  · obtain ⟨-, -, -, splits, hs, hca⟩ := sparkCanon_ok cfg df cfg' hok
    rw [hca]
    simp only [sparkSplits] at hs
    cases hr : df.rows.head? with
    | none => rw [hr] at hs; cases hs
    | some row0 =>
      rw [hr] at hs
      exact sparkSplitsGo_zeros _ _ _ _ splits hs
  · intro df2 hsch hlen hhead
    have hsplits : sparkSplits df2 = sparkSplits df := by
      simp only [sparkSplits, hsch, hlen, hhead]
    have heq : sparkCanon { cfg with test_input := some (PyVal.spark df2) } df2 =
        sparkCanon cfg df := by
      simp only [sparkCanon, hsplits, hsch]
    simp only [fixTestInput]
    rw [heq]
    exact hok

/-- Witness for C10 at the one-field width-2 one-row frame: the single
canonical array is the all-zero (1, 2) array. -/
theorem spark_frame_schema_only_witness :
    (⟨[1, 2], Dtype.float64, [0, 0]⟩ : NpArray).data = List.replicate (1 * 2) 0 ∧
    (⟨[1, 2], Dtype.float64, [0, 0]⟩ : NpArray).shape = [1, 2] :=
  (spark_frame_schema_only exSparkCfg exSparkDF exSparkOut rfl rfl).1
    ⟨[1, 2], Dtype.float64, [0, 0]⟩ (by decide)

end Hummingbird
